import Mathlib

/-!
Verification of `src/scripts/cost-reporting.py` (AI Validation Platform cost
reporter) against its natural-language specification.

Python floats are modelled as rationals (`ℚ`); the spec's equalities are all
stated "within floating-point tolerance", so exact rational arithmetic is the
intended idealisation.  Python dicts built with `defaultdict(float)` are
modelled as insertion-ordered association lists `List (String × ℚ)`, which is
also the iteration order Python guarantees.  Fallible code (KeyError,
ValueError, ZeroDivisionError) is modelled with `Except String`.
-/

namespace CostReporting

/-- One grouped row of a Cost Explorer `ResultsByTime` bucket:
`group['Keys']` and the already-parsed
`float(group['Metrics']['BlendedCost']['Amount'])`. -/
structure CEGroup where
  Keys : List String
  blendedCostAmount : ℚ
deriving DecidableEq, Repr

/-- One time bucket of the raw cost response: `result['TimePeriod']['Start']`
and `result['Groups']`. -/
structure ResultByTime where
  periodStart : String
  Groups : List CEGroup
deriving DecidableEq, Repr

/-- The dictionary built by `CostReporter.process_cost_data` (lines 136-143).
`by_environment`, `by_service`, `by_aws_service` are `defaultdict(float)`
aggregation maps; `daily_costs` is the list of `{'date': ..., 'cost': ...}`
entries.  (`monthly_trend` is initialised in the source and never written or
read anywhere, so it is omitted.) -/
structure ProcessedData where
  total_cost : ℚ
  by_environment : List (String × ℚ)
  by_service : List (String × ℚ)
  by_aws_service : List (String × ℚ)
  daily_costs : List (String × ℚ)
deriving DecidableEq, Repr

/-- The initial `processed_data` dictionary (lines 136-143). -/
def initialProcessedData : ProcessedData :=
  { total_cost := 0
    by_environment := []
    by_service := []
    by_aws_service := []
    daily_costs := [] }

/-- `defaultdict(float)` update `m[k] += c`: add `c` to the entry of `k`,
inserting `k` (at the end, Python insertion order) if absent. -/
def addTo : List (String × ℚ) → String → ℚ → List (String × ℚ)
  | [], k, c => [(k, c)]
  | (k', v) :: rest, k, c =>
      if k' = k then (k', v + c) :: rest else (k', v) :: addTo rest k c

/-- The key-extraction loop of `process_cost_data` (lines 156-167):
`for i, key in enumerate(keys)`, where positions 0/1/2 are the environment
tag, service tag and AWS service dimension, an empty string is falsy (so the
`'unknown'` default is kept), and any further positions fall through. -/
def extractKeysLoop : Nat → List String → String → String → String → String × String × String
  | _, [], e, s, a => (e, s, a)
  | i, k :: ks, e, s, a =>
      if i = 0 ∧ k ≠ "" then extractKeysLoop (i + 1) ks k s a
      else if i = 1 ∧ k ≠ "" then extractKeysLoop (i + 1) ks e k a
      else if i = 2 ∧ k ≠ "" then extractKeysLoop (i + 1) ks e s k
      else extractKeysLoop (i + 1) ks e s a

/-- Environment / service / AWS-service components of a row's `Keys`,
starting from the `'unknown'` defaults (lines 157-159). -/
def extractKeys (keys : List String) : String × String × String :=
  extractKeysLoop 0 keys "unknown" "unknown" "unknown"

/-- The inner `for group in result['Groups']` loop (lines 152-173):
aggregates each group's cost into the three maps and the running
`period_total`. -/
def processGroups : List CEGroup → ProcessedData → ℚ → ProcessedData × ℚ
  | [], pd, periodTotal => (pd, periodTotal)
  | g :: gs, pd, periodTotal =>
      let esa := extractKeys g.Keys
      processGroups gs
        { pd with
            by_environment := addTo pd.by_environment esa.1 g.blendedCostAmount
            by_service := addTo pd.by_service esa.2.1 g.blendedCostAmount
            by_aws_service := addTo pd.by_aws_service esa.2.2 g.blendedCostAmount }
        (periodTotal + g.blendedCostAmount)

/-- The outer `for result in cost_data['ResultsByTime']` loop (lines 148-180):
after each bucket, append `{'date': period_start, 'cost': period_total}` to
`daily_costs` and add the bucket subtotal to `total_cost`. -/
def processResults : List ResultByTime → ProcessedData → ProcessedData
  | [], pd => pd
  | r :: rs, pd =>
      let step := processGroups r.Groups pd 0
      processResults rs
        { step.1 with
            daily_costs := step.1.daily_costs ++ [(r.periodStart, step.2)]
            total_cost := step.1.total_cost + step.2 }

/-- `CostReporter.process_cost_data` (lines 134-182).  The argument is `none`
when `not cost_data or 'ResultsByTime' not in cost_data` (empty response from
a failed query, or a response without the key), otherwise the list of
time buckets. -/
def process_cost_data (cost_data : Option (List ResultByTime)) : ProcessedData :=
  match cost_data with
  | none => initialProcessedData
  | some results => processResults results initialProcessedData

/-- Sum of the values of an aggregation map (Python `sum(m.values())`). -/
def sumVals (m : List (String × ℚ)) : ℚ :=
  (m.map Prod.snd).sum

/-- The keys of an aggregation map, in insertion order. -/
def keysOf (m : List (String × ℚ)) : List String :=
  m.map Prod.fst

/-- Total cost of a list of grouped rows. -/
def costSum (gs : List CEGroup) : ℚ :=
  (gs.map CEGroup.blendedCostAmount).sum

theorem sumVals_addTo (m : List (String × ℚ)) (k : String) (c : ℚ) :
    sumVals (addTo m k c) = sumVals m + c := by
  induction m with
  | nil => simp [addTo, sumVals]
  | cons p rest ih =>
      obtain ⟨k', v⟩ := p
      by_cases h : k' = k
      · simp [addTo, h, sumVals]
        ring
      · simp [addTo, h, sumVals] at ih ⊢
        rw [ih]
        ring

theorem processGroups_snd (gs : List CEGroup) (pd : ProcessedData) (pt : ℚ) :
    (processGroups gs pd pt).2 = pt + costSum gs := by
  induction gs generalizing pd pt with
  | nil => simp [processGroups, costSum]
  | cons g gs ih =>
      simp [processGroups, costSum, ih, List.map_cons]
      ring

theorem processGroups_env (gs : List CEGroup) (pd : ProcessedData) (pt : ℚ) :
    sumVals (processGroups gs pd pt).1.by_environment =
      sumVals pd.by_environment + costSum gs := by
  induction gs generalizing pd pt with
  | nil => simp [processGroups, costSum]
  | cons g gs ih =>
      simp [processGroups, costSum, ih, sumVals_addTo, List.map_cons]
      ring

theorem processGroups_svc (gs : List CEGroup) (pd : ProcessedData) (pt : ℚ) :
    sumVals (processGroups gs pd pt).1.by_service =
      sumVals pd.by_service + costSum gs := by
  induction gs generalizing pd pt with
  | nil => simp [processGroups, costSum]
  | cons g gs ih =>
      simp [processGroups, costSum, ih, sumVals_addTo, List.map_cons]
      ring

theorem processGroups_aws (gs : List CEGroup) (pd : ProcessedData) (pt : ℚ) :
    sumVals (processGroups gs pd pt).1.by_aws_service =
      sumVals pd.by_aws_service + costSum gs := by
  induction gs generalizing pd pt with
  | nil => simp [processGroups, costSum]
  | cons g gs ih =>
      simp [processGroups, costSum, ih, sumVals_addTo, List.map_cons]
      ring

theorem processGroups_total (gs : List CEGroup) (pd : ProcessedData) (pt : ℚ) :
    (processGroups gs pd pt).1.total_cost = pd.total_cost := by
  induction gs generalizing pd pt with
  | nil => simp [processGroups]
  | cons g gs ih => simp [processGroups, ih]

theorem processGroups_daily (gs : List CEGroup) (pd : ProcessedData) (pt : ℚ) :
    (processGroups gs pd pt).1.daily_costs = pd.daily_costs := by
  induction gs generalizing pd pt with
  | nil => simp [processGroups]
  | cons g gs ih => simp [processGroups, ih]

/-- The conservation invariant of the aggregation loop: every breakdown map
and the daily series sum to the running grand total. -/
def SumInv (pd : ProcessedData) : Prop :=
  sumVals pd.by_environment = pd.total_cost ∧
  sumVals pd.by_service = pd.total_cost ∧
  sumVals pd.by_aws_service = pd.total_cost ∧
  sumVals pd.daily_costs = pd.total_cost

theorem sumInv_initial : SumInv initialProcessedData := by
  refine ⟨?_, ?_, ?_, ?_⟩ <;> simp [initialProcessedData, sumVals]

theorem sumInv_processResults (rs : List ResultByTime) (pd : ProcessedData)
    (h : SumInv pd) : SumInv (processResults rs pd) := by
  induction rs generalizing pd with
  | nil => simpa [processResults] using h
  | cons r rs ih =>
      obtain ⟨he, hs, ha, hd⟩ := h
      refine ih _ ⟨?_, ?_, ?_, ?_⟩
      · simp [processGroups_env, processGroups_total, processGroups_snd, he]
      · simp [processGroups_svc, processGroups_total, processGroups_snd, hs]
      · simp [processGroups_aws, processGroups_total, processGroups_snd, ha]
      · simp [sumVals, processGroups_daily, processGroups_total,
          processGroups_snd] at hd ⊢
        simp [hd]

theorem sumInv_process_cost_data (cd : Option (List ResultByTime)) :
    SumInv (process_cost_data cd) := by
  cases cd with
  | none => exact sumInv_initial
  | some rs => exact sumInv_processResults rs _ sumInv_initial

theorem mem_keysOf_addTo (m : List (String × ℚ)) (k x : String) (c : ℚ) :
    x ∈ keysOf (addTo m k c) ↔ x ∈ keysOf m ∨ x = k := by
  induction m with
  | nil => simp [addTo, keysOf]
  | cons p rest ih =>
      obtain ⟨k', v⟩ := p
      by_cases h : k' = k
      · subst h
        simp [addTo, keysOf]
        tauto
      · simp [addTo, h, keysOf] at ih ⊢
        tauto

theorem nodup_keysOf_addTo (m : List (String × ℚ)) (k : String) (c : ℚ)
    (h : (keysOf m).Nodup) : (keysOf (addTo m k c)).Nodup := by
  induction m with
  | nil => simp [addTo, keysOf]
  | cons p rest ih =>
      obtain ⟨k', v⟩ := p
      rw [keysOf, List.map_cons, List.nodup_cons] at h
      by_cases hk : k' = k
      · have heq : addTo ((k', v) :: rest) k c = (k', v + c) :: rest := by
          simp [addTo, hk]
        rw [heq, keysOf, List.map_cons, List.nodup_cons]
        exact h
      · have heq : addTo ((k', v) :: rest) k c = (k', v) :: addTo rest k c := by
          simp [addTo, hk]
        rw [heq, keysOf, List.map_cons, List.nodup_cons]
        refine ⟨?_, ih h.2⟩
        intro hmem
        rcases (mem_keysOf_addTo rest k k' c).1 hmem with hin | hkk
        · exact h.1 hin
        · exact hk hkk

theorem nonneg_addTo (m : List (String × ℚ)) (k : String) (c : ℚ)
    (hm : ∀ p ∈ m, 0 ≤ p.2) (hc : 0 ≤ c) : ∀ p ∈ addTo m k c, 0 ≤ p.2 := by
  induction m with
  | nil => simpa [addTo]
  | cons q rest ih =>
      obtain ⟨k', v⟩ := q
      simp at hm
      by_cases hk : k' = k
      · subst hk
        intro p hp
        simp [addTo] at hp
        rcases hp with hp | hp
        · subst hp
          exact add_nonneg hm.1 hc
        · exact hm.2 p.1 p.2 hp
      · intro p hp
        simp [addTo, hk] at hp
        rcases hp with hp | hp
        · subst hp
          exact hm.1
        · exact ih (fun q hq => hm.2 q.1 q.2 hq) p hp

/-- Structural invariant of the three breakdown maps: unique keys. -/
def NodupInv (pd : ProcessedData) : Prop :=
  (keysOf pd.by_environment).Nodup ∧
  (keysOf pd.by_service).Nodup ∧
  (keysOf pd.by_aws_service).Nodup

/-- Non-negativity of every breakdown value. -/
def NonnegInv (pd : ProcessedData) : Prop :=
  (∀ p ∈ pd.by_environment, 0 ≤ p.2) ∧
  (∀ p ∈ pd.by_service, 0 ≤ p.2) ∧
  (∀ p ∈ pd.by_aws_service, 0 ≤ p.2)

theorem nodupInv_processGroups (gs : List CEGroup) (pd : ProcessedData) (pt : ℚ)
    (h : NodupInv pd) : NodupInv (processGroups gs pd pt).1 := by
  induction gs generalizing pd pt with
  | nil => simpa [processGroups] using h
  | cons g gs ih =>
      obtain ⟨he, hs, ha⟩ := h
      exact ih _ _ ⟨nodup_keysOf_addTo _ _ _ he, nodup_keysOf_addTo _ _ _ hs,
        nodup_keysOf_addTo _ _ _ ha⟩

theorem nonnegInv_processGroups (gs : List CEGroup) (pd : ProcessedData) (pt : ℚ)
    (hg : ∀ g ∈ gs, 0 ≤ g.blendedCostAmount) (h : NonnegInv pd) :
    NonnegInv (processGroups gs pd pt).1 := by
  induction gs generalizing pd pt with
  | nil => simpa [processGroups] using h
  | cons g gs ih =>
      obtain ⟨he, hs, ha⟩ := h
      simp at hg
      exact ih _ _ hg.2
        ⟨nonneg_addTo _ _ _ he hg.1, nonneg_addTo _ _ _ hs hg.1,
          nonneg_addTo _ _ _ ha hg.1⟩

theorem nodupInv_processResults (rs : List ResultByTime) (pd : ProcessedData)
    (h : NodupInv pd) : NodupInv (processResults rs pd) := by
  induction rs generalizing pd with
  | nil => simpa [processResults] using h
  | cons r rs ih =>
      refine ih _ ?_
      have := nodupInv_processGroups r.Groups pd 0 h
      exact ⟨this.1, this.2.1, this.2.2⟩

theorem nonnegInv_processResults (rs : List ResultByTime) (pd : ProcessedData)
    (hg : ∀ r ∈ rs, ∀ g ∈ r.Groups, 0 ≤ g.blendedCostAmount)
    (h : NonnegInv pd) : NonnegInv (processResults rs pd) := by
  induction rs generalizing pd with
  | nil => simpa [processResults] using h
  | cons r rs ih =>
      simp at hg
      refine ih _ (fun r' hr' => hg.2 r' hr') ?_
      have := nonnegInv_processGroups r.Groups pd 0 hg.1 h
      exact ⟨this.1, this.2.1, this.2.2⟩

/-- The index-0/1/2 branches of the key loop never fire once `3 ≤ i`: any key
component beyond the third is ignored (lines 161-167). -/
theorem extractKeysLoop_ge₃ (ks : List String) (i : Nat) (e s a : String)
    (h : 3 ≤ i) : extractKeysLoop i ks e s a = (e, s, a) := by
  induction ks generalizing i with
  | nil => rfl
  | cons k ks ih =>
      have h0 : i ≠ 0 := by omega
      have h1 : i ≠ 1 := by omega
      have h2 : i ≠ 2 := by omega
      simp only [extractKeysLoop, h0, h1, h2, false_and, if_false]
      exact ih (i + 1) (by omega)

theorem extractKeys_cons₃ (k1 k2 k3 : String) (rest : List String) :
    extractKeys (k1 :: k2 :: k3 :: rest) =
      ((if k1 = "" then "unknown" else k1),
       (if k2 = "" then "unknown" else k2),
       (if k3 = "" then "unknown" else k3)) := by
  by_cases h1 : k1 = "" <;> by_cases h2 : k2 = "" <;> by_cases h3 : k3 = "" <;>
    simp [extractKeys, extractKeysLoop, h1, h2, h3, extractKeysLoop_ge₃]

theorem extractKeys_nil : extractKeys [] = ("unknown", "unknown", "unknown") := rfl

theorem extractKeys_single (k1 : String) :
    extractKeys [k1] =
      ((if k1 = "" then "unknown" else k1), "unknown", "unknown") := by
  by_cases h1 : k1 = "" <;> simp [extractKeys, extractKeysLoop, h1]

theorem extractKeys_pair (k1 k2 : String) :
    extractKeys [k1, k2] =
      ((if k1 = "" then "unknown" else k1),
       (if k2 = "" then "unknown" else k2), "unknown") := by
  by_cases h1 : k1 = "" <;> by_cases h2 : k2 = "" <;>
    simp [extractKeys, extractKeysLoop, h1, h2]

/-! ## Recommendation and forecast normalisation -/

/-- One raw entry of `RightsizingRecommendations`.  Each field models the
corresponding dictionary key; `none` means the key is absent (the Python code
reads every field with `.get` and a default).  The nested descriptor
dictionaries are modelled as key-value lists. -/
structure RawRecommendation where
  AccountId : Option String
  CurrentInstance : Option (List (String × String))
  RightsizingType : Option String
  ModifyRecommendationDetail : Option (List (String × String))
  TerminateRecommendationDetail : Option (List (String × String))
  EstimatedMonthlySavings : Option String
deriving DecidableEq, Repr

/-- The normalised recommendation shape built at lines 238-245. -/
structure Recommendation where
  account_id : String
  current_instance : List (String × String)
  rightsizing_type : String
  modify_recommendation : List (String × String)
  terminate_recommendation : List (String × String)
  estimated_monthly_savings : String
deriving DecidableEq, Repr

/-- `CostReporter._process_recommendations` (lines 230-248): `none` models a
response that is falsy or lacks the `RightsizingRecommendations` key. -/
def process_recommendations
    (recommendations : Option (List RawRecommendation)) : List Recommendation :=
  match recommendations with
  | none => []
  | some rs =>
      rs.map fun r =>
        { account_id := r.AccountId.getD ""
          current_instance := r.CurrentInstance.getD []
          rightsizing_type := r.RightsizingType.getD ""
          modify_recommendation := r.ModifyRecommendationDetail.getD []
          terminate_recommendation := r.TerminateRecommendationDetail.getD []
          estimated_monthly_savings := r.EstimatedMonthlySavings.getD "0" }

/-- One raw entry of `ForecastResultsByTime`.  `TimePeriod = none` models a
missing `TimePeriod` key (Python `result['TimePeriod']` raises `KeyError`);
`MeanValue = none` a missing `MeanValue` key; `MeanValue = some none` a value
present but not parsable by `float(...)` (raises `ValueError`); and
`MeanValue = some (some q)` a value parsing to `q`. -/
structure RawForecastEntry where
  TimePeriod : Option (String × String)
  MeanValue : Option (Option ℚ)
deriving DecidableEq, Repr

/-- One normalised forecast period (lines 262-266). -/
structure ForecastPeriod where
  period_start : String
  period_end : String
  forecasted_cost : ℚ
deriving DecidableEq, Repr

/-- The normalised forecast object (lines 270-273). -/
structure Forecast where
  total_forecasted_cost : ℚ
  forecast_by_period : List ForecastPeriod
deriving DecidableEq, Repr

/-- The `for result in forecast_data['ForecastResultsByTime']` loop
(lines 258-268), accumulating the period list and the running total; a
missing key or unparsable mean raises (propagates as `Except.error`). -/
def forecastLoop : List RawForecastEntry → List ForecastPeriod → ℚ →
    Except String (List ForecastPeriod × ℚ)
  | [], acc, tot => .ok (acc, tot)
  | entry :: rest, acc, tot =>
      match entry.TimePeriod with
      | none => .error "KeyError: TimePeriod"
      | some tp =>
          match entry.MeanValue with
          | none => .error "KeyError: MeanValue"
          | some none => .error "ValueError: could not convert string to float"
          | some (some m) => forecastLoop rest (acc ++ [⟨tp.1, tp.2, m⟩]) (tot + m)

/-- `CostReporter._process_forecast` (lines 250-273).  `none` models input
that is falsy or lacks the `ForecastResultsByTime` key (the code returns the
empty dict `{}`, modelled as `Except.ok none`); otherwise the loop runs and
any entry-level failure propagates as an exception. -/
def process_forecast (forecast_data : Option (List RawForecastEntry)) :
    Except String (Option Forecast) :=
  match forecast_data with
  | none => .ok none
  | some entries =>
      (forecastLoop entries [] 0).map fun res =>
        some { total_forecasted_cost := res.2, forecast_by_period := res.1 }

/-! ## Report assembly -/

/-- `report['metadata']` (lines 204-210).  The date strings are opaque here:
the source formats `datetime.now()` with `strftime`, which has no bearing on
any verified property. -/
structure Metadata where
  report_date : String
  period_start : String
  period_end : String
  environment : String
  account_id : String
deriving DecidableEq, Repr

/-- `report['summary']` (lines 211-215). -/
structure Summary where
  total_cost : ℚ
  average_daily_cost : ℚ
  projected_monthly_cost : ℚ
deriving DecidableEq, Repr

/-- `report['cost_breakdown']` (lines 216-220). -/
structure CostBreakdown where
  by_environment : List (String × ℚ)
  by_service : List (String × ℚ)
  by_aws_service : List (String × ℚ)
deriving DecidableEq, Repr

/-- The assembled report dictionary (lines 203-226); `daily_costs` is
`report['trends']['daily_costs']`. -/
structure Report where
  metadata : Metadata
  summary : Summary
  cost_breakdown : CostBreakdown
  daily_costs : List (String × ℚ)
  recommendations : List Recommendation
  forecast : Option Forecast
deriving DecidableEq, Repr

/-- The summary computation at lines 211-215: Python raises
`ZeroDivisionError` on `total_cost / days` when `days == 0` (there is no
validation of `days` anywhere in the source). -/
def buildSummary (total : ℚ) (days : ℤ) : Except String Summary :=
  if days = 0 then .error "ZeroDivisionError: float division by zero"
  else
    .ok { total_cost := total
          average_daily_cost := total / (days : ℚ)
          projected_monthly_cost := total / (days : ℚ) * 30 }

/-- The outbound network calls `generate_cost_allocation_report` performs, in
source order: `get_cost_and_usage` (line 192),
`get_rightsizing_recommendations` (line 196), `get_usage_forecast`
(line 201). -/
inductive NetCall where
  | costUsage
  | rightsizing
  | forecast
deriving DecidableEq, Repr

/-- Whether an assembly result succeeded (Python: no exception raised). -/
def isOkResult (r : Except String Report) : Bool :=
  match r with
  | .ok _ => true
  | .error _ => false

/-- `CostReporter.generate_cost_allocation_report` (lines 184-228), with the
three fetched responses passed in and the network calls it makes recorded in
the first component.  All three calls happen before the report dictionary is
assembled; during assembly the summary division (line 213) is evaluated
before `_process_forecast` (line 225), so a `days = 0` division error
precedes any forecast-processing error. -/
def generate_cost_allocation_report (days : ℤ)
    (environment account_id report_date start_date end_date : String)
    (cost_data : Option (List ResultByTime))
    (recs_data : Option (List RawRecommendation))
    (forecast_data : Option (List RawForecastEntry)) :
    List NetCall × Except String Report :=
  ([NetCall.costUsage, NetCall.rightsizing, NetCall.forecast],
    let pd := process_cost_data cost_data
    match buildSummary pd.total_cost days with
    | .error e => .error e
    | .ok s =>
        match process_forecast forecast_data with
        | .error e => .error e
        | .ok fc =>
            .ok { metadata := { report_date := report_date
                                period_start := start_date
                                period_end := end_date
                                environment := environment
                                account_id := account_id }
                  summary := s
                  cost_breakdown := { by_environment := pd.by_environment
                                      by_service := pd.by_service
                                      by_aws_service := pd.by_aws_service }
                  daily_costs := pd.daily_costs
                  recommendations := process_recommendations recs_data
                  forecast := fc })

/-! ## Renderers and exporters

The Python renderers only read the assembled report.  They are embedded in
state-passing style: each returns the report state after the call together
with the output it produces (console lines, CSV rows, file names).  Numeric
display formatting (`f"{x:.2f}"`) is abstracted by `toString`; it plays no
role in any claim. -/

/-- Percentage of a cost against the grand total, as computed at
lines 420/426/433: `(cost / total * 100) if total > 0 else 0`. -/
def percentage (cost total : ℚ) : ℚ :=
  if total > 0 then cost / total * 100 else 0

/-- Percentages of every entry of a breakdown map against a total. -/
def breakdownPercentages (m : List (String × ℚ)) (total : ℚ) : List (String × ℚ) :=
  m.map fun p => (p.1, percentage p.2 total)

/-- Stable insertion of an entry into a cost-descending list: models one step
of Python `sorted(items, key=lambda x: x[1], reverse=True)`. -/
def insertByCostDesc (x : String × ℚ) : List (String × ℚ) → List (String × ℚ)
  | [] => [x]
  | y :: ys => if y.2 < x.2 then x :: y :: ys else y :: insertByCostDesc x ys

/-- `sorted(m.items(), key=lambda x: x[1], reverse=True)`. -/
def sortByCostDesc (m : List (String × ℚ)) : List (String × ℚ) :=
  m.foldr insertByCostDesc []

/-- One breakdown line of the console report (lines 421/427/434): name,
cost, and percentage of the total. -/
def breakdownLine (total : ℚ) (p : String × ℚ) : String :=
  "  " ++ p.1 ++ " $" ++ toString p.2 ++ " (" ++ toString (percentage p.2 total) ++ "%)"

/-- The `"=" * 80` banner printed around the console report. -/
def bannerLine : String :=
  String.mk (List.replicate 80 (Char.ofNat 61))

/-- The console output of `print_summary_report` (lines 398-454) as a list of
lines: header and metadata, cost summary, the three breakdown sections
(sorted by descending cost, provider services truncated to the top 5), the
recommendations count if any exist, and the forecast section if present.
(The recommendation-savings text and the trend arrow are omitted: they are
pure output formatting read-only in the report.) -/
def consoleSummaryLines (report : Report) : List String :=
  [bannerLine,
   "🏢 AI VALIDATION PLATFORM - COST REPORT",
   "📅 Report Date: " ++ report.metadata.report_date,
   "🗓️  Period: " ++ report.metadata.period_start ++ " to " ++ report.metadata.period_end,
   "🌍 Environment: " ++ report.metadata.environment,
   "🏦 Account ID: " ++ report.metadata.account_id,
   "📊 COST SUMMARY",
   "💰 Total Cost: $" ++ toString report.summary.total_cost,
   "📈 Average Daily Cost: $" ++ toString report.summary.average_daily_cost,
   "📅 Projected Monthly Cost: $" ++ toString report.summary.projected_monthly_cost,
   "🏷️  COST BY ENVIRONMENT"] ++
  (sortByCostDesc report.cost_breakdown.by_environment).map
    (breakdownLine report.summary.total_cost) ++
  ["🔧 COST BY SERVICE"] ++
  (sortByCostDesc report.cost_breakdown.by_service).map
    (breakdownLine report.summary.total_cost) ++
  ["☁️  TOP AWS SERVICES"] ++
  ((sortByCostDesc report.cost_breakdown.by_aws_service).take 5).map
    (breakdownLine report.summary.total_cost) ++
  (if report.recommendations ≠ [] then
    ["💡 RIGHTSIZING RECOMMENDATIONS",
     "  Number of Recommendations: " ++ toString report.recommendations.length]
   else []) ++
  (match report.forecast with
   | some fc =>
      ["🔮 30-DAY FORECAST",
       "  Forecasted Cost (30 days): $" ++ toString fc.total_forecasted_cost] ++
      (if report.summary.projected_monthly_cost > 0 then
        ["  Change from Current Trend: " ++
          toString ((fc.total_forecasted_cost - report.summary.projected_monthly_cost) /
            report.summary.projected_monthly_cost * 100) ++ "%"]
       else [])
   | none => [])

/-- `CostReporter.print_summary_report` (lines 398-454) in state-passing
style: the report after the call, and the console lines produced. -/
def print_summary_report (report : Report) : Report × List String :=
  (report, consoleSummaryLines report)

/-- The CSV rows written by `export_to_csv` (lines 356-387): header row, then
summary, environment breakdown, service breakdown and daily-cost sections,
each preceded by a section-label row. -/
def csvRows (report : Report) : List (List String) :=
  [["Category", "Value/Name", "Cost", "Notes"],
   ["Summary", "", "", ""],
   ["Total Cost", toString report.summary.total_cost, "", ""],
   ["Average Daily Cost", toString report.summary.average_daily_cost, "", ""],
   ["Projected Monthly Cost", toString report.summary.projected_monthly_cost, "", ""],
   ["", "", "", ""],
   ["Cost by Environment", "", "", ""]] ++
  report.cost_breakdown.by_environment.map (fun p => [p.1, toString p.2, "", ""]) ++
  [["", "", "", ""],
   ["Cost by Service", "", "", ""]] ++
  report.cost_breakdown.by_service.map (fun p => [p.1, toString p.2, "", ""]) ++
  [["", "", "", ""],
   ["Daily Costs", "", "", ""],
   ["Date", "Cost", "", ""]] ++
  report.daily_costs.map (fun p => [p.1, toString p.2, "", ""])

/-- `CostReporter.export_to_csv` (lines 353-389) in state-passing style: the
report after the call, the filename it returns, and the rows written. -/
def export_to_csv (report : Report) (filename : String) :
    Report × String × List (List String) :=
  (report, filename, csvRows report)

/-- `CostReporter.export_to_json` (lines 391-396) in state-passing style: the
report after the call and the filename it returns (the file receives the
serialised report verbatim). -/
def export_to_json (report : Report) (filename : String) : Report × String :=
  (report, filename)

/-- The chart files written by `generate_visualizations` (lines 275-351), in
source order; each chart is skipped when its source data is empty.  Note the
file names are fixed per chart kind: they contain neither the environment
selector nor any timestamp. -/
def chart_filenames (report : Report) (output_dir : String) : List String :=
  (if report.cost_breakdown.by_environment ≠ [] then
    [output_dir ++ "/cost_by_environment.png"] else []) ++
  (if report.cost_breakdown.by_service ≠ [] then
    [output_dir ++ "/cost_by_service.png"] else []) ++
  (if report.daily_costs ≠ [] then
    [output_dir ++ "/daily_cost_trend.png"] else []) ++
  (if report.cost_breakdown.by_aws_service ≠ [] then
    [output_dir ++ "/cost_by_aws_service.png"] else [])

/-- `CostReporter.generate_visualizations` (lines 275-351) in state-passing
style: the report after the call and the list of chart files written. -/
def generate_visualizations (report : Report) (output_dir : String) :
    Report × List String :=
  (report, chart_filenames report output_dir)

/-- The JSON artifact name built in `main` (line 490):
`f"{args.output}_{args.environment}_{timestamp}.json"`. -/
def json_filename (output environment timestamp : String) : String :=
  output ++ "_" ++ environment ++ "_" ++ timestamp ++ ".json"

/-- The CSV artifact name built in `main` (line 496). -/
def csv_filename (output environment timestamp : String) : String :=
  output ++ "_" ++ environment ++ "_" ++ timestamp ++ ".csv"

/-- All artifact paths of one `main` run with `--format both --charts`
(lines 486-506): the JSON and CSV files, then the charts, which `main`
writes to the current directory `"."`. -/
def run_artifacts (output environment timestamp : String) (report : Report) :
    List String :=
  [json_filename output environment timestamp,
   csv_filename output environment timestamp] ++
  chart_filenames report "."

/-! ## Helper lemmas about assembly -/

theorem buildSummary_ok (total : ℚ) (days : ℤ) (s : Summary)
    (h : buildSummary total days = .ok s) :
    days ≠ 0 ∧
      s = { total_cost := total
            average_daily_cost := total / (days : ℚ)
            projected_monthly_cost := total / (days : ℚ) * 30 } := by
  unfold buildSummary at h
  split at h
  · cases h
  · refine ⟨by assumption, ?_⟩
    cases h
    rfl

/-- Destructuring a successful report assembly: the summary comes from
`buildSummary` on the aggregated total, and the breakdown maps and daily
series are the aggregator's, verbatim. -/
theorem generate_ok_fields (days : ℤ)
    (environment account_id report_date start_date end_date : String)
    (cost_data : Option (List ResultByTime))
    (recs_data : Option (List RawRecommendation))
    (forecast_data : Option (List RawForecastEntry)) (r : Report)
    (h : (generate_cost_allocation_report days environment account_id
        report_date start_date end_date cost_data recs_data forecast_data).2 =
      .ok r) :
    buildSummary (process_cost_data cost_data).total_cost days = .ok r.summary ∧
    r.cost_breakdown.by_environment = (process_cost_data cost_data).by_environment ∧
    r.cost_breakdown.by_service = (process_cost_data cost_data).by_service ∧
    r.cost_breakdown.by_aws_service = (process_cost_data cost_data).by_aws_service ∧
    r.daily_costs = (process_cost_data cost_data).daily_costs := by
  simp only [generate_cost_allocation_report] at h
  cases hb : buildSummary (process_cost_data cost_data).total_cost days with
  | error e => rw [hb] at h; cases h
  | ok s =>
      rw [hb] at h
      cases hf : process_forecast forecast_data with
      | error e => rw [hf] at h; cases h
      | ok fc =>
          rw [hf] at h
          cases h
          exact ⟨rfl, rfl, rfl, rfl, rfl⟩

theorem forecastLoop_wellFormed (entries : List ((String × String) × ℚ))
    (acc : List ForecastPeriod) (tot : ℚ) :
    forecastLoop (entries.map fun e => ⟨some e.1, some (some e.2)⟩) acc tot =
      .ok (acc ++ entries.map (fun e => ⟨e.1.1, e.1.2, e.2⟩),
        tot + (entries.map fun e => e.2).sum) := by
  induction entries generalizing acc tot with
  | nil => simp [forecastLoop]
  | cons e es ih =>
      simp only [List.map_cons, forecastLoop, ih, List.append_assoc,
        List.singleton_append, List.sum_cons]
      refine congrArg _ (congrArg _ ?_)
      ring

/-! ## Sample data used by witnesses and counterexamples -/

/-- A concrete two-bucket DAILY cost response for environment `prod`,
service `api`, AWS service `AmazonEC2`, costing $10 and $20. -/
def sampleCostData : List ResultByTime :=
  [{ periodStart := "2025-01-01"
     Groups := [{ Keys := ["prod", "api", "AmazonEC2"], blendedCostAmount := 10 }] },
   { periodStart := "2025-01-02"
     Groups := [{ Keys := ["prod", "api", "AmazonEC2"], blendedCostAmount := 20 }] }]

/-- The report `generate_cost_allocation_report` assembles from
`sampleCostData` over a 2-day window with no recommendations and no
forecast. -/
def sampleReport : Report :=
  { metadata := { report_date := "2025-01-03T00:00:00"
                  period_start := "2024-12-04"
                  period_end := "2025-01-03"
                  environment := "all"
                  account_id := "123456789012" }
    summary := { total_cost := 30, average_daily_cost := 15, projected_monthly_cost := 450 }
    cost_breakdown := { by_environment := [("prod", 30)]
                        by_service := [("api", 30)]
                        by_aws_service := [("AmazonEC2", 30)] }
    daily_costs := [("2025-01-01", 10), ("2025-01-02", 20)]
    recommendations := []
    forecast := none }

/-- Concrete evaluation of the assembly pipeline on the sample input:
two buckets of $10 and $20 over a 2-day window produce `sampleReport`. -/
theorem sample_generate_eq :
    (generate_cost_allocation_report 2 "all" "123456789012" "2025-01-03T00:00:00"
        "2024-12-04" "2025-01-03" (some sampleCostData) none none).2 =
      Except.ok sampleReport := by
  norm_num [generate_cost_allocation_report, process_cost_data, processResults,
    processGroups, extractKeys, extractKeysLoop, addTo, initialProcessedData,
    buildSummary, process_forecast, process_recommendations, sampleCostData,
    sampleReport]
  decide

/-- A one-bucket response whose single row carries a negative blended-cost
amount (a credit/refund, as Cost Explorer reports them). -/
def negativeCostData : List ResultByTime :=
  [{ periodStart := "2025-01-01"
     Groups := [{ Keys := [], blendedCostAmount := -5 }] }]

/-- A one-bucket response whose single row carries a single key component. -/
def singleKeyRowData (d k1 : String) (c : ℚ) : List ResultByTime :=
  [{ periodStart := d
     Groups := [{ Keys := [k1], blendedCostAmount := c }] }]

/-- A forecast response whose results key is present but whose entry lacks
the `MeanValue` field. -/
def malformedForecastData : List RawForecastEntry :=
  [{ TimePeriod := some ("2025-01-03", "2025-02-02")
     MeanValue := none }]

/-! ## Claims -/

/-- C1: for every cost-and-usage input that the aggregator processes into a
successfully assembled report, the sum of the `by_environment` values, the
sum of the `by_service` values, the sum of the `by_aws_service` values and
the sum of the daily-series costs all equal `summary.total_cost` (exactly,
in the rational idealisation of float arithmetic). -/
theorem C1_breakdown_sums_equal_total (days : ℤ)
    (environment account_id report_date start_date end_date : String)
    (cost_data : Option (List ResultByTime))
    (recs_data : Option (List RawRecommendation))
    (forecast_data : Option (List RawForecastEntry)) (r : Report)
    (h : (generate_cost_allocation_report days environment account_id
        report_date start_date end_date cost_data recs_data forecast_data).2 =
      .ok r) :
    sumVals r.cost_breakdown.by_environment = r.summary.total_cost ∧
    sumVals r.cost_breakdown.by_service = r.summary.total_cost ∧
    sumVals r.cost_breakdown.by_aws_service = r.summary.total_cost ∧
    sumVals r.daily_costs = r.summary.total_cost := by
  obtain ⟨hs, he, hsv, ha, hd⟩ := generate_ok_fields days environment account_id
    report_date start_date end_date cost_data recs_data forecast_data r h
  obtain ⟨-, hsum⟩ := buildSummary_ok _ _ _ hs
  have hinv := sumInv_process_cost_data cost_data
  rw [he, hsv, ha, hd, hsum]
  exact ⟨hinv.1, hinv.2.1, hinv.2.2.1, hinv.2.2.2⟩

/-- Witness for C1, on the concrete 2-bucket sample input. -/
theorem C1_witness :
    ((generate_cost_allocation_report 2 "all" "123456789012" "2025-01-03T00:00:00"
        "2024-12-04" "2025-01-03" (some sampleCostData) none none).2 =
      Except.ok sampleReport) ∧
    (sumVals sampleReport.cost_breakdown.by_environment = sampleReport.summary.total_cost ∧
     sumVals sampleReport.cost_breakdown.by_service = sampleReport.summary.total_cost ∧
     sumVals sampleReport.cost_breakdown.by_aws_service = sampleReport.summary.total_cost ∧
     sumVals sampleReport.daily_costs = sampleReport.summary.total_cost) :=
  ⟨sample_generate_eq, C1_breakdown_sums_equal_total 2 "all" "123456789012"
    "2025-01-03T00:00:00" "2024-12-04" "2025-01-03" (some sampleCostData)
    none none sampleReport sample_generate_eq⟩

/-- C2 counterexample: with `days = 0` the pipeline performs all three
network calls (cost-and-usage query included) and only then fails, with the
division-by-zero error from `summary.average_daily_cost`; and with
`days = -1` nothing is rejected at all: a report is assembled successfully.
So a non-positive `days` is never rejected before a network call. -/
theorem C2_counterexample :
    (generate_cost_allocation_report 0 "all" "123456789012" "2025-01-03T00:00:00"
        "2024-12-04" "2025-01-03" none none none).1 =
      [NetCall.costUsage, NetCall.rightsizing, NetCall.forecast] ∧
    (generate_cost_allocation_report 0 "all" "123456789012" "2025-01-03T00:00:00"
        "2024-12-04" "2025-01-03" none none none).2 =
      Except.error "ZeroDivisionError: float division by zero" ∧
    isOkResult (generate_cost_allocation_report (-1) "all" "123456789012"
        "2025-01-03T00:00:00" "2024-12-04" "2025-01-03" none none none).2 = true :=
  ⟨rfl, rfl, rfl⟩

/-- C2 (amended): the source never validates `days`.  All three network
calls are made unconditionally; `days = 0` then surfaces as a
`ZeroDivisionError` during report assembly — after the network calls — and
negative values are accepted without any error. -/
theorem C2_no_validation_before_network_calls (days : ℤ)
    (environment account_id report_date start_date end_date : String)
    (cost_data : Option (List ResultByTime))
    (recs_data : Option (List RawRecommendation))
    (forecast_data : Option (List RawForecastEntry)) :
    (generate_cost_allocation_report days environment account_id report_date
        start_date end_date cost_data recs_data forecast_data).1 =
      [NetCall.costUsage, NetCall.rightsizing, NetCall.forecast] ∧
    (days = 0 →
      (generate_cost_allocation_report days environment account_id report_date
          start_date end_date cost_data recs_data forecast_data).2 =
        Except.error "ZeroDivisionError: float division by zero") := by
  refine ⟨rfl, fun h0 => ?_⟩
  subst h0
  rfl

/-- Witness for C2 (amended), at `days = 0` on the sample input. -/
theorem C2_witness :
    ((0 : ℤ) = 0) ∧
    (generate_cost_allocation_report 0 "all" "123456789012" "2025-01-03T00:00:00"
        "2024-12-04" "2025-01-03" (some sampleCostData) none none).2 =
      Except.error "ZeroDivisionError: float division by zero" :=
  ⟨rfl, (C2_no_validation_before_network_calls 0 "all" "123456789012"
    "2025-01-03T00:00:00" "2024-12-04" "2025-01-03" (some sampleCostData)
    none none).2 rfl⟩

/-- C3: an absent cost-query result (falsy response or response without the
`ResultsByTime` key, modelled as `none`) and a result with zero time buckets
both aggregate to total cost 0, three empty breakdown mappings and an empty
daily series.  `process_cost_data` is a total function in this model, so no
exception is possible. -/
theorem C3_empty_input_yields_zero_report :
    process_cost_data none =
      { total_cost := 0, by_environment := [], by_service := [],
        by_aws_service := [], daily_costs := [] } ∧
    process_cost_data (some []) =
      { total_cost := 0, by_environment := [], by_service := [],
        by_aws_service := [], daily_costs := [] } :=
  ⟨rfl, rfl⟩

/-- C4: in every successfully assembled report with a positive requested
window, `summary.average_daily_cost` is `total_cost / days` (hence
`average_daily_cost * days = total_cost`) and `summary.projected_monthly_cost`
is `average_daily_cost * 30`. -/
theorem C4_average_daily_and_projected_monthly (days : ℤ)
    (environment account_id report_date start_date end_date : String)
    (cost_data : Option (List ResultByTime))
    (recs_data : Option (List RawRecommendation))
    (forecast_data : Option (List RawForecastEntry)) (r : Report)
    (hdays : 0 < days)
    (h : (generate_cost_allocation_report days environment account_id
        report_date start_date end_date cost_data recs_data forecast_data).2 =
      .ok r) :
    r.summary.average_daily_cost = r.summary.total_cost / (days : ℚ) ∧
    r.summary.average_daily_cost * (days : ℚ) = r.summary.total_cost ∧
    r.summary.projected_monthly_cost = r.summary.average_daily_cost * 30 := by
  obtain ⟨hs, -, -, -, -⟩ := generate_ok_fields days environment account_id
    report_date start_date end_date cost_data recs_data forecast_data r h
  obtain ⟨-, hsum⟩ := buildSummary_ok _ _ _ hs
  have hq : (days : ℚ) ≠ 0 := Int.cast_ne_zero.mpr (by omega)
  rw [hsum]
  refine ⟨rfl, ?_, rfl⟩
  exact div_mul_cancel₀ _ hq

/-- Witness for C4, on the 2-day sample run. -/
theorem C4_witness :
    ((0 : ℤ) < 2) ∧
    ((generate_cost_allocation_report 2 "all" "123456789012" "2025-01-03T00:00:00"
        "2024-12-04" "2025-01-03" (some sampleCostData) none none).2 =
      Except.ok sampleReport) ∧
    (sampleReport.summary.average_daily_cost =
        sampleReport.summary.total_cost / ((2 : ℤ) : ℚ) ∧
     sampleReport.summary.average_daily_cost * ((2 : ℤ) : ℚ) =
        sampleReport.summary.total_cost ∧
     sampleReport.summary.projected_monthly_cost =
        sampleReport.summary.average_daily_cost * 30) :=
  ⟨by decide, sample_generate_eq, C4_average_daily_and_projected_monthly 2 "all"
    "123456789012" "2025-01-03T00:00:00" "2024-12-04" "2025-01-03"
    (some sampleCostData) none none sampleReport (by decide) sample_generate_eq⟩

/-- C5 counterexample: a grouped row whose blended-cost amount is negative
(Cost Explorer reports credits and refunds as negative amounts) makes a
breakdown value negative; nothing in `process_cost_data` clamps or rejects
it.  So "every value in each breakdown mapping is non-negative" is false for
this input. -/
theorem C5_counterexample :
    (process_cost_data (some negativeCostData)).by_environment =
      [("unknown", -5)] ∧ ((-5 : ℚ) < 0) := by
  refine ⟨?_, by norm_num⟩
  norm_num [negativeCostData, process_cost_data, processResults, processGroups,
    extractKeys, extractKeysLoop, addTo, initialProcessedData]

/-- C5 (amended): within each of the three breakdown mappings the keys are
unique (unconditionally), and every breakdown value is non-negative provided
every blended-cost amount of the input is non-negative. -/
theorem C5_keys_unique_values_nonneg (cd : Option (List ResultByTime)) :
    (keysOf (process_cost_data cd).by_environment).Nodup ∧
    (keysOf (process_cost_data cd).by_service).Nodup ∧
    (keysOf (process_cost_data cd).by_aws_service).Nodup ∧
    ((∀ r ∈ cd.getD [], ∀ g ∈ r.Groups, 0 ≤ g.blendedCostAmount) →
      (∀ p ∈ (process_cost_data cd).by_environment, 0 ≤ p.2) ∧
      (∀ p ∈ (process_cost_data cd).by_service, 0 ≤ p.2) ∧
      (∀ p ∈ (process_cost_data cd).by_aws_service, 0 ≤ p.2)) := by
  cases cd with
  | none =>
      refine ⟨?_, ?_, ?_, fun _ => ⟨?_, ?_, ?_⟩⟩ <;>
        simp [process_cost_data, initialProcessedData, keysOf]
  | some rs =>
      have hn := nodupInv_processResults rs initialProcessedData
        ⟨by simp [initialProcessedData, keysOf],
         by simp [initialProcessedData, keysOf],
         by simp [initialProcessedData, keysOf]⟩
      refine ⟨hn.1, hn.2.1, hn.2.2, fun h => ?_⟩
      have h' : ∀ r ∈ rs, ∀ g ∈ r.Groups, 0 ≤ g.blendedCostAmount := by
        simpa using h
      have hp := nonnegInv_processResults rs initialProcessedData h'
        ⟨by simp [initialProcessedData], by simp [initialProcessedData],
         by simp [initialProcessedData]⟩
      exact ⟨hp.1, hp.2.1, hp.2.2⟩

/-- Witness for C5 (amended): key uniqueness at the sample input, and the
non-negativity implication discharged there since the sample's amounts are
all non-negative. -/
theorem C5_witness :
    ((keysOf (process_cost_data (some sampleCostData)).by_environment).Nodup ∧
     (keysOf (process_cost_data (some sampleCostData)).by_service).Nodup ∧
     (keysOf (process_cost_data (some sampleCostData)).by_aws_service).Nodup) ∧
    (∀ r ∈ (some sampleCostData : Option (List ResultByTime)).getD [],
        ∀ g ∈ r.Groups, 0 ≤ g.blendedCostAmount) ∧
    ((∀ p ∈ (process_cost_data (some sampleCostData)).by_environment, 0 ≤ p.2) ∧
     (∀ p ∈ (process_cost_data (some sampleCostData)).by_service, 0 ≤ p.2) ∧
     (∀ p ∈ (process_cost_data (some sampleCostData)).by_aws_service, 0 ≤ p.2)) :=
  ⟨⟨(C5_keys_unique_values_nonneg (some sampleCostData)).1,
    (C5_keys_unique_values_nonneg (some sampleCostData)).2.1,
    (C5_keys_unique_values_nonneg (some sampleCostData)).2.2.1⟩,
   by decide,
   (C5_keys_unique_values_nonneg (some sampleCostData)).2.2.2 (by decide)⟩

/-- C6 counterexample: a forecast response that does contain the per-period
results key but whose entry lacks a mean value is malformed input, and the
normaliser raises (`KeyError`, propagated to the caller) instead of
returning an empty forecast object. -/
theorem C6_counterexample :
    process_forecast (some malformedForecastData) =
      Except.error "KeyError: MeanValue" := rfl

/-- C6 (amended): an absent forecast response (or one without the
`ForecastResultsByTime` key) yields the empty forecast object; a well-formed
response is normalised per period — start, end and the mean parsed as a
decimal — with `total_forecasted_cost` the sum of the means.  But an entry
with a missing or unparsable field raises an exception (see the
counterexample) rather than yielding an empty forecast. -/
theorem C6_forecast_normalisation (entries : List ((String × String) × ℚ)) :
    process_forecast none = Except.ok none ∧
    process_forecast (some (entries.map fun e => ⟨some e.1, some (some e.2)⟩)) =
      Except.ok (some
        { total_forecasted_cost := (entries.map fun e => e.2).sum
          forecast_by_period := entries.map fun e => ⟨e.1.1, e.1.2, e.2⟩ }) := by
  refine ⟨rfl, ?_⟩
  simp [process_forecast, forecastLoop_wellFormed, Except.map]

/-- C7: every console percentage is `cost / total * 100` when the total is
positive, and the guard yields 0 instead of dividing when the total is zero;
in particular every breakdown entry of a zero-cost report gets percentage
0. -/
theorem C7_percentage_division_guard (cost total : ℚ) (m : List (String × ℚ)) :
    (0 < total → percentage cost total = cost / total * 100) ∧
    (total = 0 → percentage cost total = 0) ∧
    (∀ p ∈ breakdownPercentages m 0, p.2 = 0) := by
  refine ⟨fun h => ?_, fun h => ?_, fun p hp => ?_⟩
  · simp [percentage, h]
  · simp [percentage, h]
  · unfold breakdownPercentages at hp
    rcases List.mem_map.1 hp with ⟨q, hq, hpe⟩
    rw [← hpe]
    simp [percentage]

/-- Witness for C7: concrete positive-total and zero-total percentages. -/
theorem C7_witness :
    ((0 : ℚ) < 10) ∧ percentage 5 10 = 5 / 10 * 100 ∧
    ((0 : ℚ) = 0) ∧ percentage 5 0 = 0 ∧
    (∀ p ∈ breakdownPercentages [("prod", (3 : ℚ))] 0, p.2 = 0) :=
  ⟨by norm_num, (C7_percentage_division_guard 5 10 []).1 (by norm_num),
   rfl, (C7_percentage_division_guard 5 0 []).2.1 rfl,
   (C7_percentage_division_guard 5 0 [("prod", 3)]).2.2⟩

/-- C8: a key component that is an empty string is replaced by `"unknown"`;
rows with fewer than three key components aggregate with the missing
positions defaulting to `"unknown"`; key components beyond the third are
ignored.  The last three conjuncts show a one-key row aggregating its cost
under the defaulted keys. -/
theorem C8_missing_key_components_default_to_unknown (k1 k2 k3 : String)
    (rest : List String) (c : ℚ) (d : String) :
    extractKeys [] = ("unknown", "unknown", "unknown") ∧
    extractKeys [k1] =
      ((if k1 = "" then "unknown" else k1), "unknown", "unknown") ∧
    extractKeys [k1, k2] =
      ((if k1 = "" then "unknown" else k1),
       (if k2 = "" then "unknown" else k2), "unknown") ∧
    extractKeys (k1 :: k2 :: k3 :: rest) =
      ((if k1 = "" then "unknown" else k1),
       (if k2 = "" then "unknown" else k2),
       (if k3 = "" then "unknown" else k3)) ∧
    (process_cost_data (some (singleKeyRowData d k1 c))).by_environment =
      [((if k1 = "" then "unknown" else k1), c)] ∧
    (process_cost_data (some (singleKeyRowData d k1 c))).by_service =
      [("unknown", c)] ∧
    (process_cost_data (some (singleKeyRowData d k1 c))).by_aws_service =
      [("unknown", c)] := by
  refine ⟨extractKeys_nil, extractKeys_single k1, extractKeys_pair k1 k2,
    extractKeys_cons₃ k1 k2 k3 rest, ?_, ?_, ?_⟩ <;>
    simp [singleKeyRowData, process_cost_data, processResults, processGroups,
      extractKeys_single, addTo, initialProcessedData]

/-- C9 counterexample: two runs that differ only in their timestamp produce
the JSON and CSV names with the environment and timestamp in them, but the
chart files keep the same four fixed names (written to the current
directory), which therefore contain neither the environment selector nor the
timestamp and collide across runs. -/
theorem C9_counterexample :
    run_artifacts "cost_report" "all" "20250101_000000" sampleReport =
      ["cost_report_all_20250101_000000.json",
       "cost_report_all_20250101_000000.csv",
       "./cost_by_environment.png", "./cost_by_service.png",
       "./daily_cost_trend.png", "./cost_by_aws_service.png"] ∧
    run_artifacts "cost_report" "all" "20250202_111111" sampleReport =
      ["cost_report_all_20250202_111111.json",
       "cost_report_all_20250202_111111.csv",
       "./cost_by_environment.png", "./cost_by_service.png",
       "./daily_cost_trend.png", "./cost_by_aws_service.png"] ∧
    ("20250101_000000" : String) ≠ "20250202_111111" ∧
    ¬ ("20250101_000000".data <:+: "./cost_by_environment.png".data) := by
  refine ⟨?_, ?_, by decide, by decide⟩ <;>
    simp [run_artifacts, json_filename, csv_filename, chart_filenames,
      sampleReport]

/-- C9 (amended): the JSON and CSV artifact names contain the environment
selector and the run timestamp, but each chart artifact has a fixed
per-chart name inside the output directory, independent of environment and
timestamp. -/
theorem C9_structured_artifacts_named_charts_fixed
    (output env ts dir : String) (r : Report) :
    env.data <:+: (json_filename output env ts).data ∧
    ts.data <:+: (json_filename output env ts).data ∧
    env.data <:+: (csv_filename output env ts).data ∧
    ts.data <:+: (csv_filename output env ts).data ∧
    (∀ f ∈ chart_filenames r dir,
      f = dir ++ "/cost_by_environment.png" ∨ f = dir ++ "/cost_by_service.png" ∨
      f = dir ++ "/daily_cost_trend.png" ∨ f = dir ++ "/cost_by_aws_service.png") := by
  refine ⟨⟨(output ++ "_").data, ("_" ++ ts ++ ".json").data, ?_⟩,
    ⟨(output ++ "_" ++ env ++ "_").data, ".json".data, ?_⟩,
    ⟨(output ++ "_").data, ("_" ++ ts ++ ".csv").data, ?_⟩,
    ⟨(output ++ "_" ++ env ++ "_").data, ".csv".data, ?_⟩, ?_⟩
  · simp [json_filename, String.data_append]
  · simp [json_filename, String.data_append]
  · simp [csv_filename, String.data_append]
  · simp [csv_filename, String.data_append]
  · intro f hf
    simp only [chart_filenames] at hf
    split_ifs at hf <;> simp_all <;> tauto

/-- C10: every renderer and exporter, embedded in state-passing style,
returns the report it was given unchanged: the console printer, the CSV
exporter, the JSON exporter and the chart generator all consume the
assembled report read-only. -/
theorem C10_renderers_leave_report_unchanged (r : Report)
    (csvName jsonName output_dir : String) :
    (print_summary_report r).1 = r ∧
    (export_to_csv r csvName).1 = r ∧
    (export_to_json r jsonName).1 = r ∧
    (generate_visualizations r output_dir).1 = r :=
  ⟨rfl, rfl, rfl, rfl⟩

end CostReporting
